import Mathlib

/-!
Verification development for the j-stocks dashboard caching and
aggregation core (`src/utils/cache.py`, `src/data/loader.py`).

The Python code is shallowly embedded: pandas DataFrames become lists of
rows of scalar values, the filesystem becomes a map from path segments to
optional file contents, Streamlit session state becomes an explicit
`CacheState` record threaded through every operation, and `time.time()`
becomes an explicit integer `now` parameter.  Python exceptions inside a
`try` block are modelled with `Option`: `none` at the caller means the
body raised (and was caught) or produced no result.

The MD5-of-JSON cache-key derivation (`DataCache._generate_cache_key`)
calls two opaque library functions (`json.dumps`, `hashlib.md5`); it is
modelled as an arbitrary function `gk` from the `(ticker, data_type,
kwargs)` tuple to a key string, passed as a parameter.  Every theorem
below is proved for all such key-derivation functions.
-/

/-- A scalar cell value of a parsed CSV table: a number (modelled as a
rational; the source uses IEEE floats) or a string. -/
inductive PyVal where
  | num (q : ℚ)
  | str (s : String)
deriving DecidableEq, Repr

/-- A pandas DataFrame: a list of column names and a list of rows, each row
a list of cells aligned with the columns. -/
structure DataFrame where
  cols : List String
  rows : List (List PyVal)
deriving DecidableEq, Repr

/-- Index of a column name in a column list (`df.columns.get_loc`). -/
def colIdxAux (c : String) : List String → Option Nat
  | [] => none
  | x :: rest => if x = c then some 0 else (colIdxAux c rest).map Nat.succ

/-- `df[c].iloc[i]` for a non-negative position `i`: `none` models the
KeyError/IndexError raised when the column or row is missing. -/
def DataFrame.cell? (df : DataFrame) (c : String) (i : Nat) : Option PyVal :=
  match colIdxAux c df.cols with
  | none => none
  | some j =>
    match df.rows.get? i with
    | none => none
    | some r => r.get? j

/-- Contents of a file on disk: either a well-formed CSV table or a file
on which `pd.read_csv` (or subsequent column processing) raises. -/
inductive FileData where
  | malformed
  | csv (df : DataFrame)
deriving DecidableEq

/-- The read-only filesystem: path segments to optional file contents;
`none` means the path does not exist. -/
abbrev FS := List String → Option FileData

/-! ## Association-list primitives

Streamlit's `st.session_state.data_cache` and `cache_timestamps` are
Python dicts; they are modelled as association lists where assignment
overwrites in place and `pop` removes every binding of the key. -/

/-- Dict lookup: first binding of the key, if any. -/
def afind {α : Type} : List (String × α) → String → Option α
  | [], _ => none
  | (k, v) :: rest, key => if k = key then some v else afind rest key

/-- Dict assignment: overwrite the existing binding in place, or append. -/
def aset {α : Type} : List (String × α) → String → α → List (String × α)
  | [], key, v => [(key, v)]
  | (k, w) :: rest, key, v =>
    if k = key then (k, v) :: rest else (k, w) :: aset rest key v

/-- Dict `pop(key, None)`: drop every binding of the key. -/
def aerase {α : Type} (l : List (String × α)) (key : String) : List (String × α) :=
  l.filter (fun kv => kv.1 ≠ key)

/-! ## Python substring test (`needle in haystack`) -/

/-- `startsWithL needle hay`: `needle` is an initial segment of `hay`. -/
def startsWithL : List Char → List Char → Bool
  | [], _ => true
  | _ :: _, [] => false
  | a :: as, b :: bs => a = b && startsWithL as bs

/-- `containsL needle hay`: `needle` occurs contiguously inside `hay`. -/
def containsL (needle : List Char) : List Char → Bool
  | [] => needle.isEmpty
  | c :: rest => startsWithL needle (c :: rest) || containsL needle rest

/-- Python's `needle in hay` on strings. -/
def strContains (hay needle : String) : Bool :=
  containsL needle.data hay.data

/-! ## DataCache (`src/utils/cache.py`, class `DataCache`) -/

/-- The cache manager: only the configured time-to-live, in seconds. -/
structure DataCache where
  cache_ttl : Int
deriving DecidableEq

/-- The session-scoped mutable state backing a `DataCache`:
`st.session_state.data_cache` and `st.session_state.cache_timestamps`. -/
structure CacheState (α : Type) where
  data_cache : List (String × α)
  cache_timestamps : List (String × Int)
deriving DecidableEq

/-- The key-derivation function type standing in for
`_generate_cache_key` (MD5 of the sorted-key JSON of the tuple). -/
abbrev KeyGen := String → String → List (String × String) → String

/-- `DataCache._is_cache_valid`: a key is valid iff it has a recorded
timestamp whose age is strictly below the ttl. -/
def DataCache.isCacheValid {α : Type} (c : DataCache) (s : CacheState α)
    (now : Int) (key : String) : Bool :=
  match afind s.cache_timestamps key with
  | none => false
  | some t => decide (now - t < c.cache_ttl)

/-- `DataCache.get`: derive the key; return the stored value only when the
key is still valid, else `None`. -/
def DataCache.get {α : Type} (c : DataCache) (gk : KeyGen) (s : CacheState α)
    (now : Int) (ticker dataType : String) (kwargs : List (String × String)) :
    Option α :=
  let key := gk ticker dataType kwargs
  if c.isCacheValid s now key then afind s.data_cache key else none

/-- `DataCache.set`: store the value and the current timestamp under the
derived key, overwriting any prior entry. -/
def DataCache.set {α : Type} (gk : KeyGen) (s : CacheState α) (now : Int)
    (ticker dataType : String) (data : α) (kwargs : List (String × String)) :
    CacheState α :=
  let key := gk ticker dataType kwargs
  ⟨aset s.data_cache key data, aset s.cache_timestamps key now⟩

/-- The `continue` filter of `DataCache.clear`: an entry is kept (skipped)
when the argument is truthy (a non-empty string) and is not a substring of
the entry's key. -/
def clearSkips (arg : Option String) (key : String) : Bool :=
  match arg with
  | none => false
  | some t => !t.isEmpty && !(strContains key t)

/-- The spec's reading of the partial-clear condition: a given argument
must occur in the (hashed) key as a substring; an omitted argument
matches every key. -/
def clearMatches (arg : Option String) (key : String) : Bool :=
  match arg with
  | none => true
  | some t => strContains key t

/-- `DataCache.clear`: with both arguments `None`, replace both dicts with
empty ones; otherwise collect the keys of `data_cache` not skipped by
either filter and pop them from both dicts. -/
def DataCache.clear {α : Type} (ticker dataType : Option String)
    (s : CacheState α) : CacheState α :=
  match ticker, dataType with
  | none, none => ⟨[], []⟩
  | _, _ =>
    let keysToRemove := (s.data_cache.map Prod.fst).filter
      (fun k => !(clearSkips ticker k) && !(clearSkips dataType k))
    ⟨keysToRemove.foldl aerase s.data_cache,
     keysToRemove.foldl aerase s.cache_timestamps⟩

/-- The record returned by `DataCache.get_cache_stats`. -/
structure CacheStats where
  total_cached : Nat
  valid_cached : Nat
  expired_cached : Nat
  cache_ttl : Int
deriving DecidableEq

/-- `DataCache.get_cache_stats`: total entries, entries still valid,
expired = total − valid, and the ttl. -/
def DataCache.getCacheStats {α : Type} (c : DataCache) (s : CacheState α)
    (now : Int) : CacheStats :=
  let total := s.data_cache.length
  let valid := s.data_cache.countP (fun kv => c.isCacheValid s now kv.1)
  ⟨total, valid, total - valid, c.cache_ttl⟩

/-- `get_data_cache`: the shared singleton cache, ttl one hour. -/
def get_data_cache : DataCache := ⟨3600⟩

/-! ## StockDataLoader (`src/data/loader.py`) -/

/-- Fixed relative path of a ticker's price file. -/
def stockDataPath (dataDir ticker : String) : List String :=
  [dataDir, ticker, "stock_data", "stock_data.csv"]

/-- Fixed relative path of a ticker's company-info file. -/
def companyInfoPath (dataDir ticker : String) : List String :=
  [dataDir, ticker, "company_info", "company_info.csv"]

/-- Fixed relative path of a ticker's technical-indicator file. -/
def technicalPath (dataDir ticker : String) : List String :=
  [dataDir, ticker, "technical_data", "technical_indicators.csv"]

/-- Fixed relative path of a ticker's financial-ratio file. -/
def financialRatiosPath (dataDir ticker : String) : List String :=
  [dataDir, ticker, "financial_data", "financial_ratios.csv"]

/-- Extract each row's date key from column `j` (`pd.to_datetime` on the
`Date` column): fails (`none` = raised exception, caught by the caller's
`except`) when a row has no parseable date at that column. -/
def rowsWithDate (j : Nat) : List (List PyVal) → Option (List (ℚ × List PyVal))
  | [] => some []
  | r :: rest =>
    match r.get? j with
    | some (.num q) => (rowsWithDate j rest).map (fun l => (q, r) :: l)
    | _ => none

/-- `df.sort_values('Date')` preceded by `pd.to_datetime(df['Date'])`:
`none` models the KeyError (no `Date` column) or parse error. -/
def sortByDate (df : DataFrame) : Option DataFrame :=
  match colIdxAux "Date" df.cols with
  | none => none
  | some j =>
    match rowsWithDate j df.rows with
    | none => none
    | some keyed =>
      some ⟨df.cols, (keyed.mergeSort (fun a b => decide (a.1 ≤ b.1))).map Prod.snd⟩

/-- `StockDataLoader.load_stock_data`: `None` when the file is missing;
otherwise parse, convert the `Date` column and sort by it, any raised
error being caught and converted to `None`. -/
def StockDataLoader.load_stock_data (fs : FS) (dataDir ticker : String) :
    Option DataFrame :=
  match fs (stockDataPath dataDir ticker) with
  | none => none
  | some .malformed => none
  | some (.csv df) => sortByDate df

/-- `StockDataLoader.load_company_info`: `None` when missing or
unparseable, the parsed table otherwise. -/
def StockDataLoader.load_company_info (fs : FS) (dataDir ticker : String) :
    Option DataFrame :=
  match fs (companyInfoPath dataDir ticker) with
  | none => none
  | some .malformed => none
  | some (.csv df) => some df

/-- `StockDataLoader.load_technical_indicators`: like the price loader,
with date conversion and sorting. -/
def StockDataLoader.load_technical_indicators (fs : FS) (dataDir ticker : String) :
    Option DataFrame :=
  match fs (technicalPath dataDir ticker) with
  | none => none
  | some .malformed => none
  | some (.csv df) => sortByDate df

/-- `StockDataLoader.load_financial_ratios`: `None` when missing or
unparseable, the parsed table otherwise. -/
def StockDataLoader.load_financial_ratios (fs : FS) (dataDir ticker : String) :
    Option DataFrame :=
  match fs (financialRatiosPath dataDir ticker) with
  | none => none
  | some .malformed => none
  | some (.csv df) => some df

/-- Modelled from the spec: the generic Ticker-Store read used by the
loader methods that `LazyDataLoader` and `app.py` call but that are absent
from `src/data/loader.py` (`load_income_statement`, `load_balance_sheet`,
`load_cashflow`, `load_dividend_data`, `load_news_data`).  Per spec §4.4
each resolves a fixed relative path under the ticker's directory, returns
absent if the file does not exist, parses rows, sorts by date where a date
column is present, and converts any failure to an absent result. -/
def loadTableModelled (fs : FS) (p : List String) : Option DataFrame :=
  match fs p with
  | none => none
  | some .malformed => none
  | some (.csv df) =>
    match colIdxAux "Date" df.cols with
    | none => some df
    | some _ => sortByDate df

/-- Modelled from the spec: `StockDataLoader.load_income_statement`
(missing from `src/data/loader.py`; the exact file name is not recorded,
only that the subpath is fixed). -/
def StockDataLoader.load_income_statement (fs : FS) (dataDir ticker : String) :
    Option DataFrame :=
  loadTableModelled fs [dataDir, ticker, "financial_data", "income_statement.csv"]

/-- Modelled from the spec: `StockDataLoader.load_balance_sheet`
(missing from `src/data/loader.py`). -/
def StockDataLoader.load_balance_sheet (fs : FS) (dataDir ticker : String) :
    Option DataFrame :=
  loadTableModelled fs [dataDir, ticker, "financial_data", "balance_sheet.csv"]

/-- Modelled from the spec: `StockDataLoader.load_cashflow`
(missing from `src/data/loader.py`). -/
def StockDataLoader.load_cashflow (fs : FS) (dataDir ticker : String) :
    Option DataFrame :=
  loadTableModelled fs [dataDir, ticker, "financial_data", "cashflow.csv"]

/-- Modelled from the spec: `StockDataLoader.load_dividend_data`
(missing from `src/data/loader.py`). -/
def StockDataLoader.load_dividend_data (fs : FS) (dataDir ticker : String) :
    Option DataFrame :=
  loadTableModelled fs [dataDir, ticker, "dividend_data", "dividend_data.csv"]

/-- Modelled from the spec: `StockDataLoader.load_news_data`
(missing from `src/data/loader.py`). -/
def StockDataLoader.load_news_data (fs : FS) (dataDir ticker : String) :
    Option DataFrame :=
  loadTableModelled fs [dataDir, ticker, "news_data", "news_data.csv"]

/-! ## LazyDataLoader (`src/utils/cache.py`, class `LazyDataLoader`)

Each method returns the loaded value together with the cache state after
the call (the Python methods mutate the session-scoped cache). -/

/-- `LazyDataLoader.load_stock_data`: cache hit returns the cached frame;
on miss delegate to the store and cache a non-absent result. -/
def LazyDataLoader.load_stock_data (c : DataCache) (gk : KeyGen) (fs : FS)
    (dataDir : String) (s : CacheState DataFrame) (now : Int) (ticker : String)
    (kwargs : List (String × String)) : Option DataFrame × CacheState DataFrame :=
  match c.get gk s now ticker "stock_data" kwargs with
  | some d => (some d, s)
  | none =>
    match StockDataLoader.load_stock_data fs dataDir ticker with
    | some d => (some d, DataCache.set gk s now ticker "stock_data" d kwargs)
    | none => (none, s)

/-- `LazyDataLoader.load_company_info`. -/
def LazyDataLoader.load_company_info (c : DataCache) (gk : KeyGen) (fs : FS)
    (dataDir : String) (s : CacheState DataFrame) (now : Int) (ticker : String)
    (kwargs : List (String × String)) : Option DataFrame × CacheState DataFrame :=
  match c.get gk s now ticker "company_info" kwargs with
  | some d => (some d, s)
  | none =>
    match StockDataLoader.load_company_info fs dataDir ticker with
    | some d => (some d, DataCache.set gk s now ticker "company_info" d kwargs)
    | none => (none, s)

/-- The store method `LazyDataLoader.load_financial_data` dispatches to
for a given `data_type`; `none` for an unrecognised type (the Python
method returns `None` early in that case). -/
def financialDelegate (fs : FS) (dataDir ticker dataType : String) :
    Option DataFrame :=
  if dataType = "income_statement" then
    StockDataLoader.load_income_statement fs dataDir ticker
  else if dataType = "balance_sheet" then
    StockDataLoader.load_balance_sheet fs dataDir ticker
  else if dataType = "cashflow" then
    StockDataLoader.load_cashflow fs dataDir ticker
  else if dataType = "financial_ratios" then
    StockDataLoader.load_financial_ratios fs dataDir ticker
  else none

/-- `LazyDataLoader.load_financial_data`: cached under the derived kind
`"financial_" ++ data_type`. -/
def LazyDataLoader.load_financial_data (c : DataCache) (gk : KeyGen) (fs : FS)
    (dataDir : String) (s : CacheState DataFrame) (now : Int)
    (ticker dataType : String) (kwargs : List (String × String)) :
    Option DataFrame × CacheState DataFrame :=
  match c.get gk s now ticker ("financial_" ++ dataType) kwargs with
  | some d => (some d, s)
  | none =>
    match financialDelegate fs dataDir ticker dataType with
    | some d =>
      (some d, DataCache.set gk s now ticker ("financial_" ++ dataType) d kwargs)
    | none => (none, s)

/-- `LazyDataLoader.load_dividend_data`. -/
def LazyDataLoader.load_dividend_data (c : DataCache) (gk : KeyGen) (fs : FS)
    (dataDir : String) (s : CacheState DataFrame) (now : Int) (ticker : String)
    (kwargs : List (String × String)) : Option DataFrame × CacheState DataFrame :=
  match c.get gk s now ticker "dividend_data" kwargs with
  | some d => (some d, s)
  | none =>
    match StockDataLoader.load_dividend_data fs dataDir ticker with
    | some d => (some d, DataCache.set gk s now ticker "dividend_data" d kwargs)
    | none => (none, s)

/-- `LazyDataLoader.load_news_data`. -/
def LazyDataLoader.load_news_data (c : DataCache) (gk : KeyGen) (fs : FS)
    (dataDir : String) (s : CacheState DataFrame) (now : Int) (ticker : String)
    (kwargs : List (String × String)) : Option DataFrame × CacheState DataFrame :=
  match c.get gk s now ticker "news_data" kwargs with
  | some d => (some d, s)
  | none =>
    match StockDataLoader.load_news_data fs dataDir ticker with
    | some d => (some d, DataCache.set gk s now ticker "news_data" d kwargs)
    | none => (none, s)

/-! ## OptimizedSectorLoader (`src/utils/cache.py`, class
`OptimizedSectorLoader`)

The loader's private fields `_sector_data_cache` and
`_last_sector_load_time` become an explicit `SectorLoaderState`.
`get_available_tickers` enumerates subdirectories of the data directory;
the filesystem model has no directory listing, so the enumerated ticker
list is an explicit parameter. -/

/-- `_sector_cache_ttl`, set in `OptimizedSectorLoader.__init__`
(30 minutes). -/
def sectorCacheTtl : Int := 1800

/-- The mutable fields of `OptimizedSectorLoader`:
`_sector_data_cache` (initially `None`) and `_last_sector_load_time`
(initially `0`). -/
structure SectorLoaderState where
  sectorDataCache : Option DataFrame
  lastSectorLoadTime : Int
deriving DecidableEq

/-- Column order of the rows appended to `sector_data` (the dict literal
in `load_sector_data`). -/
def sectorCols : List String :=
  ["ticker", "company_name", "sector", "industry", "sector_category",
   "market_cap", "market_cap_billion", "company_size", "current_price",
   "price_change", "employees"]

/-- The stock-data block of the per-ticker loop: check the shared cache,
on miss load from disk and, when non-absent, store it back. -/
def resolveStock (c : DataCache) (gk : KeyGen) (fs : FS) (dataDir : String)
    (now : Int) (ticker : String) (s : CacheState DataFrame) :
    Option DataFrame × CacheState DataFrame :=
  match c.get gk s now ticker "stock_data" [] with
  | some d => (some d, s)
  | none =>
    match StockDataLoader.load_stock_data fs dataDir ticker with
    | some d => (some d, DataCache.set gk s now ticker "stock_data" d [])
    | none => (none, s)

/-- `((a - b) / b) * 100` on scalar cells: `none` models the TypeError
raised on non-numeric operands.  A zero divisor yields an IEEE infinity in
the source (float division); the model has no infinities, so that case is
also mapped to `none` — no claim exercises it. -/
def pyPctChange : PyVal → PyVal → Option PyVal
  | .num a, .num b => if b = 0 then none else some (.num ((a - b) / b * 100))
  | _, _ => none

/-- The price block of the per-ticker loop: starting from
`latest_price = 0`, `price_change = 0`, refine them from the resolved
stock data when it is present and non-empty and has a close column.
`none` models an exception escaping the block (caught by the loop's
`except`). -/
def sectorPrices (stockData : Option DataFrame) : Option (PyVal × PyVal) :=
  match stockData with
  | none => some (.num 0, .num 0)
  | some sd =>
    if sd.rows.isEmpty then some (.num 0, .num 0)
    else
      let closeColumn := if sd.cols.contains "Close" then "Close" else "close"
      if sd.cols.contains closeColumn then
        match sd.cell? closeColumn (sd.rows.length - 1) with
        | none => none
        | some lastC =>
          if 2 ≤ sd.rows.length then
            match sd.cell? closeColumn (sd.rows.length - 2) with
            | none => none
            | some prevC =>
              match pyPctChange lastC prevC with
              | none => none
              | some pc => some (lastC, pc)
          else some (lastC, .num 0)
      else some (.num 0, .num 0)

/-- The dict literal appended to `sector_data`: every accessed
company-info column must be present (a missing one raises KeyError,
caught by the loop's `except` → `none`); `employees` falls back to `0`
when its column is absent. -/
def sectorRowOf (ticker : String) (df : DataFrame) (lp pc : PyVal) :
    Option (List PyVal) :=
  match df.cell? "company_name" 0, df.cell? "sector" 0, df.cell? "industry" 0,
        df.cell? "sector_category" 0, df.cell? "market_cap" 0,
        df.cell? "market_cap_billion" 0, df.cell? "company_size" 0,
        (if df.cols.contains "employees" then df.cell? "employees" 0
         else some (.num 0)) with
  | some cn, some sec, some ind, some sc, some mc, some mcb, some cs, some emp =>
    some [.str ticker, cn, sec, ind, sc, mc, mcb, cs, lp, pc, emp]
  | _, _, _, _, _, _, _, _ => none

/-- One iteration of the per-ticker loop of `load_sector_data`: returns
the appended row (`none` when the ticker is skipped — missing or empty
company info, or a caught exception) and the shared cache state after the
iteration.  A `cache.set` performed before a later exception is kept, as
in the source. -/
def sectorTickerStep (c : DataCache) (gk : KeyGen) (fs : FS) (dataDir : String)
    (now : Int) (ticker : String) (s : CacheState DataFrame) :
    Option (List PyVal) × CacheState DataFrame :=
  match fs (companyInfoPath dataDir ticker) with
  | none => (none, s)
  | some .malformed => (none, s)
  | some (.csv df) =>
    if df.rows.isEmpty then (none, s)
    else
      let res := resolveStock c gk fs dataDir now ticker s
      match sectorPrices res.1 with
      | none => (none, res.2)
      | some (lp, pc) => (sectorRowOf ticker df lp pc, res.2)

/-- `tickers[i:i+batch]` chunking of the batch loop (`range(0, n, batch)`
with `batch = bs + 1`; the source uses 50). -/
def batchChunks {α : Type} (bs : Nat) : List α → List (List α)
  | [] => []
  | x :: rest => ((x :: rest).take (bs + 1)) :: batchChunks bs ((x :: rest).drop (bs + 1))
termination_by l => l.length
decreasing_by simp [List.length_drop]; omega

/-- The doubly nested ticker loop: fold the per-ticker step over every
batch, appending produced rows in order and threading the shared cache
state. -/
def sectorRowsFold (c : DataCache) (gk : KeyGen) (fs : FS) (dataDir : String)
    (now : Int) (chunks : List (List String))
    (acc : List (List PyVal) × CacheState DataFrame) :
    List (List PyVal) × CacheState DataFrame :=
  chunks.foldl
    (fun acc2 chunk =>
      chunk.foldl
        (fun (acc3 : List (List PyVal) × CacheState DataFrame) t =>
          let step := sectorTickerStep c gk fs dataDir now t acc3.2
          match step.1 with
          | some r => (acc3.1 ++ [r], step.2)
          | none => (acc3.1, step.2))
        acc2)
    acc

/-- The rebuild path of `load_sector_data`: iterate the tickers in batches
of 50 and wrap the collected rows into a DataFrame
(`pd.DataFrame(sector_data)`: an empty row list yields a frame with no
columns). -/
def buildSectorTable (c : DataCache) (gk : KeyGen) (fs : FS) (dataDir : String)
    (now : Int) (tickers : List String) (s : CacheState DataFrame) :
    DataFrame × CacheState DataFrame :=
  let built := sectorRowsFold c gk fs dataDir now (batchChunks 49 tickers) ([], s)
  (if built.1.isEmpty then ⟨[], []⟩ else ⟨sectorCols, built.1⟩, built.2)

/-- `OptimizedSectorLoader.load_sector_data`: return the private cached
table when it exists, is young enough and no reload is forced; otherwise
rebuild, record the new table and timestamp, and return it. -/
def OptimizedSectorLoader.load_sector_data (c : DataCache) (gk : KeyGen)
    (fs : FS) (dataDir : String) (tickers : List String)
    (st : SectorLoaderState) (s : CacheState DataFrame) (now : Int)
    (forceReload : Bool) :
    DataFrame × SectorLoaderState × CacheState DataFrame :=
  if !forceReload && st.sectorDataCache.isSome &&
      decide (now - st.lastSectorLoadTime < sectorCacheTtl) then
    (st.sectorDataCache.getD ⟨[], []⟩, st, s)
  else
    let built := buildSectorTable c gk fs dataDir now tickers s
    (built.1, ⟨some built.1, now⟩, built.2)

/-! ## A trace model of cache operations

To state frame properties ("`get` never modifies the cache") the three
public cache operations are reified; `applyCacheOp` gives the session
state after one call.  `get` performs no write in the source, so its case
returns the state unchanged. -/

/-- One call to a public `DataCache` method. -/
inductive CacheOp (α : Type) where
  | opGet (now : Int) (ticker dataType : String) (kwargs : List (String × String))
  | opSet (now : Int) (ticker dataType : String) (data : α)
      (kwargs : List (String × String))
  | opClear (ticker dataType : Option String)

/-- The session state after one cache call. -/
def applyCacheOp {α : Type} (gk : KeyGen) (s : CacheState α) :
    CacheOp α → CacheState α
  | .opGet _ _ _ _ => s
  | .opSet now t d v kw => DataCache.set gk s now t d v kw
  | .opClear tk dt => DataCache.clear tk dt s

/-! ## Concrete inputs used by the witness theorems -/

/-- A concrete key-derivation function (the theorems hold for all of
them). -/
def gk0 : KeyGen := fun t d kw =>
  t ++ "|" ++ d ++ "|" ++ String.intercalate "," (kw.map (fun p => p.1 ++ "=" ++ p.2))

/-- A concrete cache manager with the shared one-hour ttl. -/
def dc0 : DataCache := ⟨3600⟩

/-- The empty session state over DataFrames. -/
def cs0 : CacheState DataFrame := ⟨[], []⟩

/-- An empty filesystem: every path is missing. -/
def fs0 : FS := fun _ => none

/-- Company-info table for the witness scenarios. -/
def ciDf : DataFrame :=
  ⟨["company_name", "sector", "industry", "sector_category", "market_cap",
    "market_cap_billion", "company_size"],
   [[.str "Toyota", .str "Auto", .str "Car", .str "Mfg", .num 1000, .num 10,
     .str "L"]]⟩

/-- Price table with Close = [100, 102, 101, 105, 110] (the spec's
scenario for ticker 7203). -/
def priceDf : DataFrame :=
  ⟨["Date", "Close"],
   [[.num 1, .num 100], [.num 2, .num 102], [.num 3, .num 101],
    [.num 4, .num 105], [.num 5, .num 110]]⟩

/-- Filesystem holding company info and prices for ticker 7203. -/
def fs1 : FS := fun p =>
  if p = companyInfoPath "output" "7203" then some (.csv ciDf)
  else if p = stockDataPath "output" "7203" then some (.csv priceDf)
  else none

/-- Filesystem holding only company info for ticker 7203 (price file
missing). -/
def fs2 : FS := fun p =>
  if p = companyInfoPath "output" "7203" then some (.csv ciDf) else none

/-- Session state whose only entry is the 7203 price table, stored at
time 0. -/
def csPrice : CacheState DataFrame :=
  ⟨[(gk0 "7203" "stock_data" [], priceDf)], [(gk0 "7203" "stock_data" [], 0)]⟩

/-- A tiny session state over `Nat` for the pure cache witnesses. -/
def csNat : CacheState Nat := ⟨[("k1", 5)], [("k1", 0)]⟩

/-! ## Helper lemmas -/

/-- Lookup after assignment at the same key gives the assigned value. -/
theorem afind_aset_self {α : Type} (l : List (String × α)) (k : String) (v : α) :
    afind (aset l k v) k = some v := by
  induction l with
  | nil => simp [aset, afind]
  | cons kv rest ih =>
    obtain ⟨k', w⟩ := kv
    by_cases h : k' = k
    · simp [aset, h, afind]
    · simp [aset, h, afind, ih]

/-- A key is absent from an association list iff lookup fails. -/
theorem afind_eq_none_iff {α : Type} (l : List (String × α)) (k : String) :
    afind l k = none ↔ k ∉ l.map Prod.fst := by
  induction l with
  | nil => simp [afind]
  | cons kv rest ih =>
    obtain ⟨k', w⟩ := kv
    by_cases h : k' = k
    · simp [afind, h]
    · simp [afind, h, ih, Ne.symm h]

/-- Lookup commutes with filtering by a predicate on keys. -/
theorem afind_filter_key {α : Type} (q : String → Bool) (l : List (String × α))
    (k : String) :
    afind (l.filter (fun kv => q kv.1)) k = if q k then afind l k else none := by
  induction l with
  | nil => simp [afind]
  | cons kv rest ih =>
    obtain ⟨k', w⟩ := kv
    by_cases hq : q k'
    · by_cases hk : k' = k
      · subst hk
        simp [List.filter, hq, afind, ih]
      · simp [List.filter, hq, afind, hk, ih]
    · by_cases hk : k' = k
      · subst hk
        simp [List.filter, hq, afind, ih]
      · simp [List.filter, hq, afind, hk, ih]

/-- Popping a list of keys one by one is filtering by non-membership. -/
theorem foldl_aerase_eq_filter {α : Type} (L : List String)
    (l : List (String × α)) :
    L.foldl aerase l = l.filter (fun kv => decide (kv.1 ∉ L)) := by
  induction L generalizing l with
  | nil => simp
  | cons a L ih =>
    rw [List.foldl_cons, ih]
    show (aerase l a).filter _ = _
    rw [aerase, List.filter_filter]
    refine List.filter_congr (fun kv _ => ?_)
    by_cases h1 : kv.1 = a <;> by_cases h2 : kv.1 ∈ L <;>
      simp [h1, h2, List.mem_cons]

/-- The empty string occurs in every character list. -/
theorem containsL_nil_needle (hay : List Char) : containsL [] hay = true := by
  cases hay <;> simp [containsL, startsWithL, List.isEmpty]

/-- The empty string is a substring of every string. -/
theorem strContains_empty (k : String) : strContains k "" = true := by
  simp [strContains, containsL_nil_needle]

/-- The `continue` filter of `clear`, negated, is exactly the
"argument occurs in the key" condition of the spec (an empty-string
argument is falsy in Python, but it also occurs in every key, so the two
readings agree). -/
theorem not_clearSkips_eq (arg : Option String) (k : String) :
    (!(clearSkips arg k)) = clearMatches arg k := by
  cases arg with
  | none => simp [clearSkips, clearMatches]
  | some t =>
    by_cases h : t.isEmpty
    · have ht : t = "" := (String.isEmpty_iff t).mp h
      subst ht
      simp [clearSkips, clearMatches, strContains_empty]
    · simp [clearSkips, clearMatches, h]

/-! ## Claim theorems -/

/-- C2 counterexample: the claim says the Sector Aggregator's private ttl
is strictly longer than the shared data cache's ttl; in the code it is
1800 s against the shared 3600 s, so it is strictly shorter. -/
theorem C2_counterexample : ¬ (get_data_cache.cache_ttl < sectorCacheTtl) := by
  decide

/-- C2 (amended): the Sector Aggregator's private result cache uses a ttl
separate from the shared data cache's ttl, and strictly shorter than it
(1800 s against 3600 s). -/
theorem C2_sector_ttl_separate_and_shorter :
    sectorCacheTtl = 1800 ∧ get_data_cache.cache_ttl = 3600 ∧
      sectorCacheTtl < get_data_cache.cache_ttl :=
  ⟨rfl, rfl, by decide⟩

/-- C3: for every (ticker, data-kind, extra-params) tuple and every value,
`get` immediately after `set` of that value under the same tuple returns
the stored value, provided the entry's age is still strictly below the
ttl — for every key-derivation function. -/
theorem C3_get_after_set {α : Type} (c : DataCache) (gk : KeyGen)
    (s : CacheState α) (ticker dataType : String)
    (kwargs : List (String × String)) (v : α) (setTime getTime : Int)
    (h : getTime - setTime < c.cache_ttl) :
    c.get gk (DataCache.set gk s setTime ticker dataType v kwargs) getTime
      ticker dataType kwargs = some v := by
  simp [DataCache.get, DataCache.set, DataCache.isCacheValid, afind_aset_self, h]

/-- C3 witness: a concrete set-then-get round trip inside the ttl. -/
theorem C3_witness :
    DataCache.get dc0 gk0
      (DataCache.set gk0 (⟨[], []⟩ : CacheState Nat) 0 "7203" "stock_data" 42 [])
      10 "7203" "stock_data" [] = some 42 :=
  C3_get_after_set dc0 gk0 ⟨[], []⟩ "7203" "stock_data" [] 42 0 10 (by decide)

/-- C4: `get` returns absent when the derived key has no recorded
timestamp (never been set), and also when the entry's age is at least the
ttl. -/
theorem C4_get_absent_unseen_or_expired {α : Type} (c : DataCache)
    (gk : KeyGen) (s : CacheState α) (now : Int) (ticker dataType : String)
    (kwargs : List (String × String))
    (h : afind s.cache_timestamps (gk ticker dataType kwargs) = none ∨
         ∃ ts, afind s.cache_timestamps (gk ticker dataType kwargs) = some ts ∧
           c.cache_ttl ≤ now - ts) :
    c.get gk s now ticker dataType kwargs = none := by
  rcases h with h | ⟨ts, hts, hexp⟩
  · simp [DataCache.get, DataCache.isCacheValid, h]
  · have hnot : ¬ (now - ts < c.cache_ttl) := not_lt.mpr hexp
    simp [DataCache.get, DataCache.isCacheValid, hts, hnot]

/-- C4 witness: an unseen key yields absent on a concrete state. -/
theorem C4_witness :
    DataCache.get dc0 gk0 csNat 5000 "7203" "stock_data" [] = none :=
  C4_get_absent_unseen_or_expired dc0 gk0 csNat 5000 "7203" "stock_data" []
    (Or.inl (by decide))

/-- C8: for every ticker whose directory lacks the price file at the fixed
relative subpath, `load_stock_data` returns an absent result. -/
theorem C8_missing_price_file_absent (fs : FS) (dataDir ticker : String)
    (h : fs (stockDataPath dataDir ticker) = none) :
    StockDataLoader.load_stock_data fs dataDir ticker = none := by
  simp [StockDataLoader.load_stock_data, h]

/-- C8 witness: the empty filesystem. -/
theorem C8_witness : StockDataLoader.load_stock_data fs0 "output" "7203" = none :=
  C8_missing_price_file_absent fs0 "output" "7203" rfl

/-- In the partial-clear branch, lookup in the cleared `data_cache` is
lookup in the original, cut down by the removal condition. -/
theorem clear_partial_afind {α : Type} (tk dt : Option String)
    (s : CacheState α) (k : String) (h : ¬(tk = none ∧ dt = none)) :
    afind (DataCache.clear tk dt s).data_cache k =
      if ((!(clearSkips tk k)) && (!(clearSkips dt k))) = true then none
      else afind s.data_cache k := by
  have main : ∀ (tk' dt' : Option String),
      afind (((s.data_cache.map Prod.fst).filter
          (fun x => (!(clearSkips tk' x)) && (!(clearSkips dt' x)))).foldl
          aerase s.data_cache) k =
        if ((!(clearSkips tk' k)) && (!(clearSkips dt' k))) = true then none
        else afind s.data_cache k := by
    intro tk' dt'
    set L := (s.data_cache.map Prod.fst).filter
        (fun x => (!(clearSkips tk' x)) && (!(clearSkips dt' x))) with hL
    rw [foldl_aerase_eq_filter]
    rw [afind_filter_key (fun x => decide (x ∉ L))]
    by_cases hc : ((!(clearSkips tk' k)) && (!(clearSkips dt' k))) = true
    · simp only [hc, if_true]
      by_cases hk : k ∈ s.data_cache.map Prod.fst
      · have hmem : k ∈ L := by rw [hL]; exact List.mem_filter.mpr ⟨hk, hc⟩
        simp [hmem]
      · have hnm : k ∉ L := by
          rw [hL]; intro hx; exact hk (List.mem_filter.mp hx).1
        simp [hnm, (afind_eq_none_iff s.data_cache k).mpr hk]
    · have hnm : k ∉ L := by
        rw [hL]; intro hx; exact hc (List.mem_filter.mp hx).2
      simp [hnm, hc]
  match tk, dt with
  | none, none => exact absurd ⟨rfl, rfl⟩ h
  | some t, none => exact main (some t) none
  | none, some d => exact main none (some d)
  | some t, some d => exact main (some t) (some d)

/-- C5: `clear` with both arguments omitted empties both dicts (so the
stats total is zero afterwards); with an argument given, it removes
exactly the entries whose hashed key string contains every given argument
as a substring. -/
theorem C5_clear_full_and_filtered {α : Type} (c : DataCache)
    (s : CacheState α) (now : Int) (ticker dataType : Option String)
    (k : String) :
    (DataCache.clear (α := α) none none s = ⟨[], []⟩ ∧
      (c.getCacheStats (DataCache.clear (α := α) none none s) now).total_cached
        = 0) ∧
    (¬(ticker = none ∧ dataType = none) →
      afind (DataCache.clear ticker dataType s).data_cache k =
        if (clearMatches ticker k && clearMatches dataType k) = true then none
        else afind s.data_cache k) := by
  refine ⟨⟨rfl, rfl⟩, fun h => ?_⟩
  rw [clear_partial_afind ticker dataType s k h, not_clearSkips_eq,
    not_clearSkips_eq]

/-- C5 witness: clearing by ticker substring removes the 7203 price entry
of a concrete state. -/
theorem C5_witness :
    afind (DataCache.clear (some "7203") none csPrice).data_cache
      (gk0 "7203" "stock_data" []) = none := by
  have h := (C5_clear_full_and_filtered (α := DataFrame) dc0 csPrice 0
    (some "7203") none (gk0 "7203" "stock_data" [])).2 (by simp)
  rw [h]
  decide

/-- C6: within its ttl and without a forced reload, the aggregator returns
the previously built table unchanged, touching neither its private state
nor the shared cache; with `force_reload = True` it always rebuilds,
recording the fresh table and the new build time, regardless of how
recently it was built. -/
theorem C6_sector_cache_hit_and_force_rebuild (c : DataCache) (gk : KeyGen)
    (fs : FS) (dataDir : String) (tickers : List String)
    (st : SectorLoaderState) (s : CacheState DataFrame) (now : Int) :
    (∀ tbl, st.sectorDataCache = some tbl →
      now - st.lastSectorLoadTime < sectorCacheTtl →
      OptimizedSectorLoader.load_sector_data c gk fs dataDir tickers st s now
        false = (tbl, st, s)) ∧
    OptimizedSectorLoader.load_sector_data c gk fs dataDir tickers st s now
        true
      = ((buildSectorTable c gk fs dataDir now tickers s).1,
         ⟨some (buildSectorTable c gk fs dataDir now tickers s).1, now⟩,
         (buildSectorTable c gk fs dataDir now tickers s).2) := by
  constructor
  · intro tbl hc hlt
    simp [OptimizedSectorLoader.load_sector_data, hc, hlt]
  · simp [OptimizedSectorLoader.load_sector_data]

/-- C6 witness: a cached table is returned unchanged on a young cache. -/
theorem C6_witness :
    OptimizedSectorLoader.load_sector_data dc0 gk0 fs0 "output" []
      ⟨some priceDf, 0⟩ cs0 10 false = (priceDf, ⟨some priceDf, 0⟩, cs0) :=
  (C6_sector_cache_hit_and_force_rebuild dc0 gk0 fs0 "output" []
    ⟨some priceDf, 0⟩ cs0 10).1 priceDf rfl (by decide)

/-- A trace of pure `get` calls leaves the session state untouched. -/
theorem foldl_gets_id {α : Type} (gk : KeyGen) (s : CacheState α) :
    ∀ ops : List (CacheOp α),
      (∀ op ∈ ops, ∃ n t d kw, op = CacheOp.opGet n t d kw) →
      ops.foldl (applyCacheOp gk) s = s
  | [], _ => rfl
  | op :: rest, h => by
    obtain ⟨n, t, d, kw, hop⟩ := h op (List.mem_cons_self op rest)
    subst hop
    rw [List.foldl_cons]
    exact foldl_gets_id gk s rest (fun o ho => h o (List.mem_cons_of_mem _ ho))

/-- C9: `get` never modifies the cache state: after any number of `get`
calls the state is unchanged, an entry whose age has reached the ttl is
still stored at its key (and the stats total still counts every entry),
while `get` on that key keeps answering absent. -/
theorem C9_get_pure_and_expired_inert {α : Type} (c : DataCache)
    (gk : KeyGen) (s : CacheState α) (ops : List (CacheOp α))
    (hops : ∀ op ∈ ops, ∃ n t d kw, op = CacheOp.opGet n t d kw)
    (k : String) (v : α) (ts now : Int)
    (hv : afind s.data_cache k = some v)
    (hts : afind s.cache_timestamps k = some ts)
    (hexp : c.cache_ttl ≤ now - ts) :
    ops.foldl (applyCacheOp gk) s = s ∧
    (∀ ticker dataType kwargs, gk ticker dataType kwargs = k →
      c.get gk s now ticker dataType kwargs = none) ∧
    afind (ops.foldl (applyCacheOp gk) s).data_cache k = some v ∧
    (c.getCacheStats (ops.foldl (applyCacheOp gk) s) now).total_cached
      = s.data_cache.length := by
  have hfold := foldl_gets_id gk s ops hops
  refine ⟨hfold, ?_, ?_, ?_⟩
  · intro ticker dataType kwargs hk
    have hnot : ¬ (now - ts < c.cache_ttl) := not_lt.mpr hexp
    simp [DataCache.get, DataCache.isCacheValid, hk, hts, hnot]
  · rw [hfold]; exact hv
  · rw [hfold]; rfl

/-- C9 witness: one expired entry survives a concrete `get`-only trace. -/
theorem C9_witness :
    ([CacheOp.opGet (α := Nat) 5000 "7203" "stock_data" []].foldl
      (applyCacheOp gk0) csNat) = csNat ∧
    afind ([CacheOp.opGet (α := Nat) 5000 "7203" "stock_data" []].foldl
      (applyCacheOp gk0) csNat).data_cache "k1" = some 5 := by
  have h := C9_get_pure_and_expired_inert dc0 gk0 csNat
    [CacheOp.opGet 5000 "7203" "stock_data" []]
    (by
      intro op hop
      rw [List.mem_singleton] at hop
      exact ⟨5000, "7203", "stock_data", [], hop⟩)
    "k1" 5 0 5000 (by decide) (by decide) (by decide)
  exact ⟨h.1, h.2.2.1⟩

/-- C1: for every data kind the Lazy Loader serves (price, company info,
each financial statement variant, dividends, news) and every ticker, a
failing underlying load (missing file, parse error — all caught inside
the Ticker Store, which is a total function into `Option`) yields an
absent result from the lazy load call, with the cache state unchanged;
no exception escapes. -/
theorem C1_lazy_loader_failure_absent (c : DataCache) (gk : KeyGen) (fs : FS)
    (dataDir : String) (s : CacheState DataFrame) (now : Int) (ticker : String)
    (kwargs : List (String × String)) :
    (c.get gk s now ticker "stock_data" kwargs = none →
      StockDataLoader.load_stock_data fs dataDir ticker = none →
      LazyDataLoader.load_stock_data c gk fs dataDir s now ticker kwargs
        = (none, s)) ∧
    (c.get gk s now ticker "company_info" kwargs = none →
      StockDataLoader.load_company_info fs dataDir ticker = none →
      LazyDataLoader.load_company_info c gk fs dataDir s now ticker kwargs
        = (none, s)) ∧
    (∀ dataType, c.get gk s now ticker ("financial_" ++ dataType) kwargs = none →
      financialDelegate fs dataDir ticker dataType = none →
      LazyDataLoader.load_financial_data c gk fs dataDir s now ticker dataType
        kwargs = (none, s)) ∧
    (c.get gk s now ticker "dividend_data" kwargs = none →
      StockDataLoader.load_dividend_data fs dataDir ticker = none →
      LazyDataLoader.load_dividend_data c gk fs dataDir s now ticker kwargs
        = (none, s)) ∧
    (c.get gk s now ticker "news_data" kwargs = none →
      StockDataLoader.load_news_data fs dataDir ticker = none →
      LazyDataLoader.load_news_data c gk fs dataDir s now ticker kwargs
        = (none, s)) := by
  refine ⟨fun h1 h2 => ?_, fun h1 h2 => ?_, fun dataType h1 h2 => ?_,
    fun h1 h2 => ?_, fun h1 h2 => ?_⟩
  · simp [LazyDataLoader.load_stock_data, h1, h2]
  · simp [LazyDataLoader.load_company_info, h1, h2]
  · simp [LazyDataLoader.load_financial_data, h1, h2]
  · simp [LazyDataLoader.load_dividend_data, h1, h2]
  · simp [LazyDataLoader.load_news_data, h1, h2]

/-- C1 witness: on the empty filesystem and empty cache, price and
cashflow lazy loads both come back absent without touching the state. -/
theorem C1_witness :
    LazyDataLoader.load_stock_data dc0 gk0 fs0 "output" cs0 0 "7203" []
      = (none, cs0) ∧
    LazyDataLoader.load_financial_data dc0 gk0 fs0 "output" cs0 0 "7203"
      "cashflow" [] = (none, cs0) :=
  ⟨(C1_lazy_loader_failure_absent dc0 gk0 fs0 "output" cs0 0 "7203" []).1
      rfl rfl,
   (C1_lazy_loader_failure_absent dc0 gk0 fs0 "output" cs0 0 "7203" []).2.2.1
      "cashflow" rfl rfl⟩

/-- C7: during sector aggregation, for a ticker whose price series has at
least two rows (here served from the shared cache, with numeric closes and
a non-zero prior close), the appended row carries
`price_change = (last − prior) / prior × 100`. -/
theorem C7_price_change_formula (c : DataCache) (gk : KeyGen) (fs : FS)
    (dataDir : String) (now : Int) (ticker : String) (s : CacheState DataFrame)
    (df sd : DataFrame) (a b : ℚ)
    (hci : fs (companyInfoPath dataDir ticker) = some (.csv df))
    (hne : df.rows.isEmpty = false)
    (hts : c.get gk s now ticker "stock_data" [] = some sd)
    (hsdne : sd.rows.isEmpty = false)
    (hclose : "Close" ∈ sd.cols)
    (hlen : 2 ≤ sd.rows.length)
    (hlast : sd.cell? "Close" (sd.rows.length - 1) = some (.num a))
    (hprev : sd.cell? "Close" (sd.rows.length - 2) = some (.num b))
    (hb : b ≠ 0) :
    sectorTickerStep c gk fs dataDir now ticker s
      = (sectorRowOf ticker df (.num a) (.num ((a - b) / b * 100)), s) := by
  have hres : resolveStock c gk fs dataDir now ticker s = (some sd, s) := by
    simp [resolveStock, hts]
  have hcc : (if sd.cols.contains "Close" then "Close" else "close")
      = "Close" := by
    simp [hclose]
  have hp : sectorPrices (some sd) = some (.num a, .num ((a - b) / b * 100)) := by
    simp only [sectorPrices, hsdne, hcc]
    simp [hclose, hlast, hlen, hprev, pyPctChange, hb]
  simp [sectorTickerStep, hci, hne, hres, hp]

/-- C7 witness: the spec scenario — closes [100, 102, 101, 105, 110] give
price_change = (110 − 105)/105 × 100 = 100/21 ≈ 4.76. -/
theorem C7_witness :
    sectorTickerStep dc0 gk0 fs1 "output" 10 "7203" csPrice
      = (sectorRowOf "7203" ciDf (.num 110) (.num ((110 - 105) / 105 * 100)),
         csPrice) ∧
    (110 - 105 : ℚ) / 105 * 100 = 100 / 21 ∧
    |(100 : ℚ) / 21 - 476 / 100| < 1 / 100 :=
  ⟨C7_price_change_formula dc0 gk0 fs1 "output" 10 "7203" csPrice ciDf priceDf
      110 105 (by decide) (by decide) (by decide) (by decide) (by decide)
      (by decide) (by decide) (by decide) (by norm_num),
   by norm_num, by rw [abs_sub_lt_iff]; constructor <;> norm_num⟩

/-- C10: when the aggregator rebuilds and a ticker's company-info file
exists with at least one row (and the accessed columns present) while its
price data resolves to absent or to an empty frame, the row for that
ticker is still produced, with `current_price = 0` and
`price_change = 0`. -/
theorem C10_missing_price_zero_row (c : DataCache) (gk : KeyGen) (fs : FS)
    (dataDir : String) (now : Int) (ticker : String) (s : CacheState DataFrame)
    (df : DataFrame) (cn sec ind sc mc mcb csz emp : PyVal)
    (hci : fs (companyInfoPath dataDir ticker) = some (.csv df))
    (hne : df.rows.isEmpty = false)
    (hsd : (resolveStock c gk fs dataDir now ticker s).1 = none ∨
           ∃ sd, (resolveStock c gk fs dataDir now ticker s).1 = some sd ∧
             sd.rows.isEmpty = true)
    (h1 : df.cell? "company_name" 0 = some cn)
    (h2 : df.cell? "sector" 0 = some sec)
    (h3 : df.cell? "industry" 0 = some ind)
    (h4 : df.cell? "sector_category" 0 = some sc)
    (h5 : df.cell? "market_cap" 0 = some mc)
    (h6 : df.cell? "market_cap_billion" 0 = some mcb)
    (h7 : df.cell? "company_size" 0 = some csz)
    (h8 : (if "employees" ∈ df.cols then df.cell? "employees" 0
           else some (.num 0)) = some emp) :
    (sectorTickerStep c gk fs dataDir now ticker s).1
      = some [.str ticker, cn, sec, ind, sc, mc, mcb, csz, .num 0, .num 0,
              emp] := by
  have hprices : sectorPrices (resolveStock c gk fs dataDir now ticker s).1
      = some (.num 0, .num 0) := by
    rcases hsd with hsd | ⟨sd, hsd, hemp⟩
    · rw [hsd]; rfl
    · rw [hsd]; simp [sectorPrices, hemp]
  simp [sectorTickerStep, hci, hne, hprices, sectorRowOf, h1, h2, h3, h4, h5,
    h6, h7, h8]

/-- C10 witness: ticker 7203 with company info but no price file gets a
row with zero current price and zero price change. -/
theorem C10_witness :
    (sectorTickerStep dc0 gk0 fs2 "output" 10 "7203" cs0).1
      = some [PyVal.str "7203", PyVal.str "Toyota", PyVal.str "Auto",
              PyVal.str "Car", PyVal.str "Mfg", PyVal.num 1000, PyVal.num 10,
              PyVal.str "L", PyVal.num 0, PyVal.num 0, PyVal.num 0] :=
  C10_missing_price_zero_row dc0 gk0 fs2 "output" 10 "7203" cs0 ciDf
    (PyVal.str "Toyota") (PyVal.str "Auto") (PyVal.str "Car")
    (PyVal.str "Mfg") (PyVal.num 1000) (PyVal.num 10) (PyVal.str "L")
    (PyVal.num 0) (by decide) (by decide) (Or.inl (by decide)) (by decide)
    (by decide) (by decide) (by decide) (by decide) (by decide) (by decide)
    (by decide)
